import Mathlib

/-!
Verification of the ztrade-mcp asynchronous task registry and progress
estimator (Go sources, package tools). The Go code is shallowly embedded:
the task map becomes an association list, timestamps and durations become
integers (nanoseconds where a duration is computed), Go float arithmetic
becomes exact rational or real arithmetic with explicit truncation where
Go converts a float to an integer type, and the nil-pointer dereference in
the status handler becomes an Option-valued handler returning none.
-/

namespace ZtradeMcp

/-- TaskStatus mirrors the Go string enumeration pending, running,
completed, failed. -/
inductive TaskStatus where
  | pending
  | running
  | completed
  | failed
  deriving DecidableEq, Repr

/-- The Go string value of a status constant. -/
def TaskStatus.toGoString : TaskStatus → String
  | .pending => "pending"
  | .running => "running"
  | .completed => "completed"
  | .failed => "failed"

/-- Task mirrors the Go struct Task. Result and error are strings whose Go
zero value is the empty string; StartedAt and EndedAt are nil-able pointers
modelled as Option. Timestamps are abstract integers. -/
structure Task where
  id : String
  type : String
  status : TaskStatus
  progress : String
  percent : Int
  result : String
  error : String
  params : List (String × String)
  createdAt : Int
  startedAt : Option Int
  endedAt : Option Int
  deriving DecidableEq, Repr

/-- Association-list lookup, modelling Go map access m[k]. -/
def mapLookup {α β : Type} [DecidableEq α] (k : α) : List (α × β) → Option β
  | [] => none
  | (k2, v) :: rest => if k2 = k then some v else mapLookup k rest

/-- Association-list insert-or-replace, modelling Go map assignment m[k] = v. -/
def mapSet {α β : Type} [DecidableEq α] (k : α) (v : β) : List (α × β) → List (α × β)
  | [] => [(k, v)]
  | (k2, v2) :: rest => if k2 = k then (k, v) :: rest else (k2, v2) :: mapSet k v rest

/-- The task registry state: the TaskManager tasks map. -/
def TM : Type := List (String × Task)

/-- CreateTask: inserts a fresh pending task. The generated id is a
parameter here (the Go code draws it from a UUID); all other fields follow
the Go composite literal, with Go zero values for result and error. -/
def createTask (tm : TM) (id taskType : String) (params : List (String × String))
    (now : Int) : TM :=
  mapSet id
    { id := id
      type := taskType
      status := .pending
      progress := "waiting to start"
      percent := 0
      result := ""
      error := ""
      params := params
      createdAt := now
      startedAt := none
      endedAt := none } tm

/-- StartTask: if the id is present, set status running, record startedAt,
and set the running placeholder text; otherwise do nothing. -/
def startTask (tm : TM) (id : String) (now : Int) : TM :=
  match mapLookup id tm with
  | none => tm
  | some t =>
      mapSet id { t with status := .running, startedAt := some now, progress := "running" } tm

/-- UpdateProgress: if the id is present, overwrite progress and percent
unconditionally; otherwise do nothing. -/
def updateProgress (tm : TM) (id : String) (progress : String) (percent : Int) : TM :=
  match mapLookup id tm with
  | none => tm
  | some t => mapSet id { t with progress := progress, percent := percent } tm

/-- CompleteTask: if the id is present, set status completed, store the
result, set the completed placeholder, percent 100, and endedAt. -/
def completeTask (tm : TM) (id : String) (result : String) (now : Int) : TM :=
  match mapLookup id tm with
  | none => tm
  | some t =>
      mapSet id
        { t with status := .completed, result := result, progress := "completed",
                 percent := 100, endedAt := some now } tm

/-- FailTask: if the id is present, set status failed, store the error
message, set the failed placeholder, and endedAt. Percent is not touched. -/
def failTask (tm : TM) (id : String) (errMsg : String) (now : Int) : TM :=
  match mapLookup id tm with
  | none => tm
  | some t =>
      mapSet id
        { t with status := .failed, error := errMsg, progress := "failed",
                 endedAt := some now } tm

/-- The typed not-found lookup failure of GetTask, carrying the unknown id
(the Go code formats it into the error message). -/
structure NotFoundError where
  id : String
  deriving DecidableEq, Repr

instance {ε α : Type} [DecidableEq ε] [DecidableEq α] : DecidableEq (Except ε α) :=
  fun a b =>
    match a, b with
    | .error e1, .error e2 =>
        if h : e1 = e2 then .isTrue (by rw [h])
        else .isFalse (by intro hc; cases hc; exact h rfl)
    | .error _, .ok _ => .isFalse (by intro hc; cases hc)
    | .ok _, .error _ => .isFalse (by intro hc; cases hc)
    | .ok v1, .ok v2 =>
        if h : v1 = v2 then .isTrue (by rw [h])
        else .isFalse (by intro hc; cases hc; exact h rfl)

/-- GetTask: the only registry operation with an error return; every
mutating operation returns no error. -/
def getTask (tm : TM) (id : String) : Except NotFoundError Task :=
  match mapLookup id tm with
  | none => .error ⟨id⟩
  | some t => .ok t

/-- One registry operation, with the timestamp the Go code would read from
the clock at that call. -/
inductive RegOp where
  | create (id taskType : String) (params : List (String × String)) (now : Int)
  | start (id : String) (now : Int)
  | updateProgress (id : String) (progress : String) (percent : Int)
  | complete (id : String) (result : String) (now : Int)
  | fail (id : String) (errMsg : String) (now : Int)
  deriving DecidableEq, Repr

/-- Apply one registry operation to the state. -/
def applyOp (tm : TM) : RegOp → TM
  | .create id taskType params now => createTask tm id taskType params now
  | .start id now => startTask tm id now
  | .updateProgress id progress percent => updateProgress tm id progress percent
  | .complete id result now => completeTask tm id result now
  | .fail id errMsg now => failTask tm id errMsg now

/-- Run a sequence of registry operations from a state. -/
def run (tm : TM) : List RegOp → TM
  | [] => tm
  | op :: ops => run (applyOp tm op) ops

/-- The stored status of a task id, if present. -/
def statusAt (id : String) (tm : TM) : Option TaskStatus :=
  (mapLookup id tm).map Task.status

/-- The stored percent of a task id, if present. -/
def percentAt (id : String) (tm : TM) : Option Int :=
  (mapLookup id tm).map Task.percent

/-- The stored startedAt of a task id, if present. -/
def startedAtOf (id : String) (tm : TM) : Option (Option Int) :=
  (mapLookup id tm).map Task.startedAt

/-- The stored error string of a task id, if present. -/
def errorAt (id : String) (tm : TM) : Option String :=
  (mapLookup id tm).map Task.error

/-- The stored result string of a task id, if present. -/
def resultAt (id : String) (tm : TM) : Option String :=
  (mapLookup id tm).map Task.result

/-- AsyncThresholdDays constant from the Go source. -/
def AsyncThresholdDays : Int := 30

/-- Nanoseconds in one day. Go computes end.Sub(start).Hours()/24, which is
the nanosecond span divided by this constant. -/
def nsPerDay : ℚ := 86400000000000

/-- Span of a time range in days, possibly fractional. Timestamps are in
integer nanoseconds; Go float64 arithmetic is modelled exactly over ℚ. -/
def spanDays (startNs endNs : Int) : ℚ :=
  ((endNs - startNs : Int) : ℚ) / nsPerDay

/-- ShouldRunAsync from the Go source: run asynchronously exactly when the
span in days strictly exceeds the threshold. -/
def ShouldRunAsync (startNs endNs : Int) : Bool :=
  decide ((AsyncThresholdDays : ℚ) < spanDays startNs endNs)

/-- Go conversion of a numeric value to an integer type: truncation toward
zero. -/
def goTrunc (q : ℚ) : Int :=
  if q < 0 then ⌈q⌉ else ⌊q⌋

/-- Per-kind estimated seconds per day of data, the Go map literal. -/
def estimatedSecondsPerDay : List (String × ℚ) :=
  [("backtest", 1/2), ("backtest_managed", 1/2), ("download", 2)]

/-- Seconds-per-day rate for a task type: the Go map lookup with the
unknown-kind default of 1.0. -/
def secsPerDayFor (taskType : String) : ℚ :=
  match mapLookup taskType estimatedSecondsPerDay with
  | some v => v
  | none => 1

/-- Estimated total duration in nanoseconds: the Go code converts
days times secondsPerDay times 1000 to an integer millisecond count
(truncating), scales to nanoseconds, then applies the 5 second floor. -/
def estimatedTotalNs (taskType : String) (startNs endNs : Int) : Int :=
  let days := spanDays startNs endNs
  let e := goTrunc (days * secsPerDayFor taskType * 1000) * 1000000
  if e < 5000000000 then 5000000000 else e

/-- Modelled from the spec words only, for comparison: the estimated total
duration as stated, max of exact days times secondsPerDay and 5 seconds,
with no millisecond truncation. -/
def specEstimatedTotalNs (taskType : String) (startNs endNs : Int) : ℚ :=
  max (spanDays startNs endNs * secsPerDayFor taskType * 1000000000) 5000000000

/-- Tick interval in nanoseconds: 2 percent of the estimated total,
truncated to integer nanoseconds as Go does, then clamped to one to ten
seconds by the two sequential bounds checks of the source. -/
def tickIntervalNs (taskType : String) (startNs endNs : Int) : Int :=
  let t0 := goTrunc ((estimatedTotalNs taskType startNs endNs : ℚ) * (2 / 100))
  let t1 := if t0 < 1000000000 then 1000000000 else t0
  if t1 > 10000000000 then 10000000000 else t1

/-- Go truncation toward zero of a real value, for the int conversion of
the estimator percentage. -/
noncomputable def goTruncR (x : ℝ) : Int :=
  if x < 0 then ⌈x⌉ else ⌊x⌋

/-- The raw estimator percentage before clamping: the exponential curve of
the source, 95 times one minus exp of minus twice the ratio of elapsed time
to estimated total. -/
noncomputable def estimatorRawPct (ratio : ℝ) : ℝ :=
  (1 - Real.exp (-2 * ratio)) * 95

/-- The clamped estimator percentage: the two sequential bounds checks of
the source pin the value into the interval from 5 to 95. -/
noncomputable def estimatorClampedPct (ratio : ℝ) : ℝ :=
  let p0 := estimatorRawPct ratio
  let p1 := if p0 < 5 then 5 else p0
  if p1 > 95 then 95 else p1

/-- The integer percent an estimator tick passes to UpdateProgress. -/
noncomputable def estimatorPercent (ratio : ℝ) : Int :=
  goTruncR (estimatorClampedPct ratio)

/-- An operation is estimator-driven when any progress update it performs
carries a percent produced by the estimator curve; every UpdateProgress in
this codebase is issued by the estimator ticker. -/
def estimatorDriven : RegOp → Prop
  | .updateProgress _ _ percent => ∃ ratio : ℝ, percent = estimatorPercent ratio
  | _ => True

/-- Does the operation start or re-create the given id. -/
def isStartOrCreateFor (id : String) : RegOp → Bool
  | .create id2 _ _ _ => id2 = id
  | .start id2 _ => id2 = id
  | _ => false

/-- No operation in the list starts or re-creates the given id. -/
def noStartOrCreateFor (id : String) : List RegOp → Bool
  | [] => true
  | op :: ops => !(isStartOrCreateFor id op) && noStartOrCreateFor id ops

/-- Does the operation fail the given id. -/
def isFailFor (id : String) : RegOp → Bool
  | .fail id2 _ _ => id2 = id
  | _ => false

/-- No operation in the list fails the given id. -/
def noFailFor (id : String) : List RegOp → Bool
  | [] => true
  | op :: ops => !(isFailFor id op) && noFailFor id ops

/-- Does the operation complete the given id. -/
def isCompleteFor (id : String) : RegOp → Bool
  | .complete id2 _ _ => id2 = id
  | _ => false

/-- No operation in the list completes the given id. -/
def noCompleteFor (id : String) : List RegOp → Bool
  | [] => true
  | op :: ops => !(isCompleteFor id op) && noCompleteFor id ops

/-- The stored error of the task is blank or the task is absent. -/
def errBlankAt (id : String) (tm : TM) : Bool :=
  match mapLookup id tm with
  | none => true
  | some t => t.error == ""

/-- The stored result of the task is blank or the task is absent. -/
def resBlankAt (id : String) (tm : TM) : Bool :=
  match mapLookup id tm with
  | none => true
  | some t => t.result == ""

/-!
Pointer-level model of the registry for the snapshot question. The Go map
is map of string to pointer to Task: the composite literal allocates a heap
cell and the map stores its address; GetTask returns the stored pointer
itself and ListTasks appends the stored pointers. The heap is explicit here
so that a caller writing through a returned pointer is expressible.
-/

/-- Heap of task records plus the id-to-address map of the TaskManager. -/
structure PtrState where
  heap : List (Nat × Task)
  tasks : List (String × Nat)
  deriving DecidableEq, Repr

/-- The empty pointer-level registry. -/
def emptyPtrState : PtrState := { heap := [], tasks := [] }

/-- CreateTask at pointer level: allocate a fresh heap cell for the new
task literal and store its address in the map. -/
def ptrCreateTask (s : PtrState) (id taskType : String)
    (params : List (String × String)) (now : Int) : PtrState :=
  let addr := s.heap.length
  let task : Task :=
    { id := id
      type := taskType
      status := .pending
      progress := "waiting to start"
      percent := 0
      result := ""
      error := ""
      params := params
      createdAt := now
      startedAt := none
      endedAt := none }
  { heap := mapSet addr task s.heap, tasks := mapSet id addr s.tasks }

/-- GetTask at pointer level: the source returns the stored pointer, not a
copy, so the observable value is the address. -/
def ptrGetTask (s : PtrState) (id : String) : Except NotFoundError Nat :=
  match mapLookup id s.tasks with
  | none => .error ⟨id⟩
  | some addr => .ok addr

/-- ListTasks at pointer level: iterate the map, apply the two optional
exact-equality filters to the pointed-to record, and collect the stored
pointers. -/
def ptrListTasks (s : PtrState) (taskType status : String) : List Nat :=
  s.tasks.filterMap (fun p =>
    match mapLookup p.2 s.heap with
    | none => none
    | some t =>
        if taskType ≠ "" ∧ t.type ≠ taskType then none
        else if status ≠ "" ∧ t.status.toGoString ≠ status then none
        else some p.2)

/-- A caller assignment through a task pointer it was handed: overwrite the
heap cell at that address. -/
def ptrWriteTask (s : PtrState) (addr : Nat) (t : Task) : PtrState :=
  { s with heap := mapSet addr t s.heap }

/-- The record the registry itself stores for an id: follow the map to the
address and read the heap cell. -/
def ptrStoredTask (s : PtrState) (id : String) : Option Task :=
  match mapLookup id s.tasks with
  | none => none
  | some addr => mapLookup addr s.heap

/-!
Model of the get_task_status tool handler. GetTask errors become an error
result returned normally; the handler builds a response from the task
fields, adds startedAt when present, and when endedAt is present computes
duration by dereferencing the StartedAt pointer. A task with endedAt set
but startedAt nil makes that dereference a nil-pointer panic, modelled as
none. Timestamp formatting is kept as the raw integer timestamps.
-/

/-- The response payload assembled by the status handler. -/
structure StatusResponse where
  taskId : String
  taskType : String
  status : TaskStatus
  progress : String
  percent : Int
  params : List (String × String)
  startedAt : Option Int
  endedAt : Option Int
  duration : Option Int
  error : Option String
  deriving DecidableEq, Repr

/-- A tool invocation outcome: an error result or a text result, both
returned normally by the Go handler. -/
inductive ToolResult where
  | errorResult (e : NotFoundError)
  | textResult (r : StatusResponse)
  deriving DecidableEq, Repr

/-- The get_task_status handler. Returns none exactly when the Go code
panics on the nil StartedAt dereference in the duration computation. -/
def getTaskStatusHandler (tm : TM) (taskID : String) : Option ToolResult :=
  match getTask tm taskID with
  | .error e => some (.errorResult e)
  | .ok task =>
      let base : StatusResponse :=
        { taskId := task.id
          taskType := task.type
          status := task.status
          progress := task.progress
          percent := task.percent
          params := task.params
          startedAt := task.startedAt
          endedAt := none
          duration := none
          error := if task.status = .failed then some task.error else none }
      match task.endedAt with
      | none => some (.textResult base)
      | some endT =>
          match task.startedAt with
          | none => none
          | some startT =>
              some (.textResult
                { base with endedAt := some endT, duration := some (endT - startT) })

/-! Theorems. First the association-list lemmas, then the claims. -/

theorem mapLookup_set_self {α β : Type} [DecidableEq α] (k : α) (v : β)
    (m : List (α × β)) : mapLookup k (mapSet k v m) = some v := by
  induction m with
  | nil => simp [mapSet, mapLookup]
  | cons hd tl ih =>
    obtain ⟨k2, v2⟩ := hd
    by_cases hk : k2 = k
    · simp [mapSet, hk, mapLookup]
    · simp [mapSet, hk, mapLookup, ih]

theorem mapLookup_set_ne {α β : Type} [DecidableEq α] (k k2 : α) (v : β)
    (m : List (α × β)) (hne : k2 ≠ k) :
    mapLookup k2 (mapSet k v m) = mapLookup k2 m := by
  have hkk : k ≠ k2 := Ne.symm hne
  induction m with
  | nil => simp [mapSet, mapLookup, hkk]
  | cons hd tl ih =>
    obtain ⟨k3, v3⟩ := hd
    by_cases hk : k3 = k
    · subst hk
      simp [mapSet, mapLookup, hkk]
    · simp [mapSet, hk, mapLookup, ih]

/-- C3: ShouldRunAsync returns false at a span of exactly 30 days, true at
30 days plus one second, and in general returns true exactly when the span
in days strictly exceeds the 30 day threshold. -/
theorem C3_shouldRunAsync_threshold :
    ShouldRunAsync 0 (30 * 86400000000000) = false ∧
    ShouldRunAsync 0 (30 * 86400000000000 + 1000000000) = true ∧
    ∀ s e : Int, ShouldRunAsync s e = true ↔ (AsyncThresholdDays : ℚ) < spanDays s e := by
  refine ⟨?_, ?_, fun s e => ?_⟩
  · simp only [ShouldRunAsync, decide_eq_false_iff_not, not_lt, AsyncThresholdDays,
      spanDays, nsPerDay]
    norm_num
  · simp only [ShouldRunAsync, decide_eq_true_eq, AsyncThresholdDays, spanDays, nsPerDay]
    norm_num
  · simp only [ShouldRunAsync, decide_eq_true_eq]

/-- C6: GetTask on a never-created id returns the typed not-found error
carrying that id, while StartTask, UpdateProgress, CompleteTask and
FailTask on that id return without error and leave the registry exactly
unchanged, so no entry for the id exists afterward. GetTask is the only
operation in the model with an error-carrying return type. -/
theorem C6_unknown_id_semantics (tm : TM) (id progress result errMsg : String)
    (percent now : Int) (h : mapLookup id tm = none) :
    getTask tm id = .error ⟨id⟩ ∧
    startTask tm id now = tm ∧
    updateProgress tm id progress percent = tm ∧
    completeTask tm id result now = tm ∧
    failTask tm id errMsg now = tm := by
  refine ⟨?_, ?_, ?_, ?_, ?_⟩ <;>
    simp [getTask, startTask, updateProgress, completeTask, failTask, h]

/-- Witness for C6 at the empty registry and a concrete id. -/
theorem C6_unknown_id_semantics_witness :
    getTask ([] : TM) "zz" = .error ⟨"zz"⟩ ∧
    startTask ([] : TM) "zz" 3 = [] ∧
    updateProgress ([] : TM) "zz" "p" 40 = [] ∧
    completeTask ([] : TM) "zz" "r" 3 = [] ∧
    failTask ([] : TM) "zz" "e" 3 = [] :=
  C6_unknown_id_semantics [] "zz" "p" "r" "e" 40 3 rfl

/-- C10: UpdateProgress on a task in a terminal state still overwrites
progress and percent unconditionally and leaves status, result, error,
params, createdAt, startedAt and endedAt unchanged. -/
theorem C10_updateProgress_frame (tm : TM) (id : String) (t : Task)
    (progress : String) (percent : Int)
    (hlook : mapLookup id tm = some t)
    (_hterm : t.status = .completed ∨ t.status = .failed) :
    mapLookup id (updateProgress tm id progress percent) =
      some { t with progress := progress, percent := percent } := by
  simp [updateProgress, hlook, mapLookup_set_self]

/-- Witness for C10: a completed task with percent 100 has its percent
overwritten to 50 by a later UpdateProgress, everything else intact. -/
theorem C10_updateProgress_frame_witness :
    mapLookup "a"
      (updateProgress
        (run [] [RegOp.create "a" "backtest" [] 0, RegOp.complete "a" "res" 1])
        "a" "halfway" 50) =
      some
        { id := "a", type := "backtest", status := .completed,
          progress := "halfway", percent := 50, result := "res", error := "",
          params := [], createdAt := 0, startedAt := none, endedAt := some 1 } :=
  C10_updateProgress_frame
    (run [] [RegOp.create "a" "backtest" [] 0, RegOp.complete "a" "res" 1])
    "a"
    { id := "a", type := "backtest", status := .completed,
      progress := "completed", percent := 100, result := "res", error := "",
      params := [], createdAt := 0, startedAt := none, endedAt := some 1 }
    "halfway" 50 (by decide) (Or.inl rfl)

/-- One operation that neither starts nor re-creates the id keeps a
terminal status terminal. -/
theorem terminal_step (tm : TM) (op : RegOp) (id : String)
    (hop : isStartOrCreateFor id op = false)
    (hterm : statusAt id tm = some .completed ∨ statusAt id tm = some .failed) :
    statusAt id (applyOp tm op) = some .completed ∨
      statusAt id (applyOp tm op) = some .failed := by
  cases op with
  | create id2 taskType params now =>
    have hne : id ≠ id2 := fun h => by simp [isStartOrCreateFor, h] at hop
    simpa [applyOp, createTask, statusAt, mapLookup_set_ne id2 id _ tm hne] using hterm
  | start id2 now =>
    have hne : id ≠ id2 := fun h => by simp [isStartOrCreateFor, h] at hop
    rcases hlook : mapLookup id2 tm with _ | t
    · simpa [applyOp, startTask, hlook] using hterm
    · simpa [applyOp, startTask, hlook, statusAt, mapLookup_set_ne id2 id _ tm hne]
        using hterm
  | updateProgress id2 progress percent =>
    rcases hlook : mapLookup id2 tm with _ | t
    · simpa [applyOp, updateProgress, hlook] using hterm
    · by_cases hid : id2 = id
      · subst hid
        simp only [statusAt, hlook, Option.map_some] at hterm
        simpa [applyOp, updateProgress, hlook, statusAt, mapLookup_set_self]
          using hterm
      · have hne : id ≠ id2 := fun h => hid h.symm
        simpa [applyOp, updateProgress, hlook, statusAt,
          mapLookup_set_ne id2 id _ tm hne] using hterm
  | complete id2 result now =>
    rcases hlook : mapLookup id2 tm with _ | t
    · simpa [applyOp, completeTask, hlook] using hterm
    · by_cases hid : id2 = id
      · subst hid
        simp [applyOp, completeTask, hlook, statusAt, mapLookup_set_self]
      · have hne : id ≠ id2 := fun h => hid h.symm
        simpa [applyOp, completeTask, hlook, statusAt,
          mapLookup_set_ne id2 id _ tm hne] using hterm
  | fail id2 errMsg now =>
    rcases hlook : mapLookup id2 tm with _ | t
    · simpa [applyOp, failTask, hlook] using hterm
    · by_cases hid : id2 = id
      · subst hid
        simp [applyOp, failTask, hlook, statusAt, mapLookup_set_self]
      · have hne : id ≠ id2 := fun h => hid h.symm
        simpa [applyOp, failTask, hlook, statusAt,
          mapLookup_set_ne id2 id _ tm hne] using hterm

/-- C1 counterexample: a completed task is moved back to running by a
subsequent StartTask, so the terminal states are not preserved by the
operations named in the claim. -/
theorem C1_counterexample :
    statusAt "a" (run [] [RegOp.create "a" "backtest" [] 0, RegOp.complete "a" "r" 1]) =
      some TaskStatus.completed ∧
    statusAt "a"
        (run []
          [RegOp.create "a" "backtest" [] 0, RegOp.complete "a" "r" 1,
            RegOp.start "a" 2]) =
      some TaskStatus.running := by
  exact ⟨by decide, by decide⟩

/-- C1 amended: once a task status is terminal, any further operation
sequence containing no StartTask and no CreateTask for that id leaves the
status terminal; CompleteTask and FailTask may switch which terminal state
holds but never leave the terminal set, and a StartTask does leave it. -/
theorem C1_terminal_preserved_without_start (tm : TM) (ops : List RegOp) (id : String)
    (hops : noStartOrCreateFor id ops = true)
    (hterm : statusAt id tm = some .completed ∨ statusAt id tm = some .failed) :
    statusAt id (run tm ops) = some .completed ∨
      statusAt id (run tm ops) = some .failed := by
  induction ops generalizing tm with
  | nil => simpa [run] using hterm
  | cons op ops ih =>
    simp only [noStartOrCreateFor, Bool.and_eq_true, Bool.not_eq_true'] at hops
    exact ih (applyOp tm op) hops.2 (terminal_step tm op id hops.1 hterm)

/-- Witness for C1: a failed task stays terminal across an update, a
complete and a fail. -/
theorem C1_terminal_preserved_without_start_witness :
    statusAt "a"
        (run (run [] [RegOp.create "a" "backtest" [] 0, RegOp.fail "a" "boom" 1])
          [RegOp.updateProgress "a" "p" 50, RegOp.complete "a" "r" 3,
            RegOp.fail "a" "e" 4]) =
      some TaskStatus.completed ∨
    statusAt "a"
        (run (run [] [RegOp.create "a" "backtest" [] 0, RegOp.fail "a" "boom" 1])
          [RegOp.updateProgress "a" "p" 50, RegOp.complete "a" "r" 3,
            RegOp.fail "a" "e" 4]) =
      some TaskStatus.failed :=
  C1_terminal_preserved_without_start
    (run [] [RegOp.create "a" "backtest" [] 0, RegOp.fail "a" "boom" 1])
    [RegOp.updateProgress "a" "p" 50, RegOp.complete "a" "r" 3, RegOp.fail "a" "e" 4]
    "a" (by decide) (Or.inr (by decide))

/-- One operation that does not fail the id keeps its error field blank. -/
theorem errBlank_step (tm : TM) (op : RegOp) (id : String)
    (hop : isFailFor id op = false)
    (hblank : errBlankAt id tm = true) :
    errBlankAt id (applyOp tm op) = true := by
  cases op with
  | create id2 taskType params now =>
    by_cases hid : id2 = id
    · subst hid
      simp [applyOp, createTask, errBlankAt, mapLookup_set_self]
    · have hne : id ≠ id2 := fun h => hid h.symm
      simpa [applyOp, createTask, errBlankAt, mapLookup_set_ne id2 id _ tm hne]
        using hblank
  | start id2 now =>
    rcases hlook : mapLookup id2 tm with _ | t
    · simpa [applyOp, startTask, hlook] using hblank
    · by_cases hid : id2 = id
      · subst hid
        simp only [errBlankAt, hlook] at hblank
        simpa [applyOp, startTask, hlook, errBlankAt, mapLookup_set_self] using hblank
      · have hne : id ≠ id2 := fun h => hid h.symm
        simpa [applyOp, startTask, hlook, errBlankAt,
          mapLookup_set_ne id2 id _ tm hne] using hblank
  | updateProgress id2 progress percent =>
    rcases hlook : mapLookup id2 tm with _ | t
    · simpa [applyOp, updateProgress, hlook] using hblank
    · by_cases hid : id2 = id
      · subst hid
        simp only [errBlankAt, hlook] at hblank
        simpa [applyOp, updateProgress, hlook, errBlankAt, mapLookup_set_self]
          using hblank
      · have hne : id ≠ id2 := fun h => hid h.symm
        simpa [applyOp, updateProgress, hlook, errBlankAt,
          mapLookup_set_ne id2 id _ tm hne] using hblank
  | complete id2 result now =>
    rcases hlook : mapLookup id2 tm with _ | t
    · simpa [applyOp, completeTask, hlook] using hblank
    · by_cases hid : id2 = id
      · subst hid
        simp only [errBlankAt, hlook] at hblank
        simpa [applyOp, completeTask, hlook, errBlankAt, mapLookup_set_self]
          using hblank
      · have hne : id ≠ id2 := fun h => hid h.symm
        simpa [applyOp, completeTask, hlook, errBlankAt,
          mapLookup_set_ne id2 id _ tm hne] using hblank
  | fail id2 errMsg now =>
    have hne : id ≠ id2 := fun h => by simp [isFailFor, h] at hop
    rcases hlook : mapLookup id2 tm with _ | t
    · simpa [applyOp, failTask, hlook] using hblank
    · simpa [applyOp, failTask, hlook, errBlankAt,
        mapLookup_set_ne id2 id _ tm hne] using hblank

/-- One operation that does not complete the id keeps its result blank. -/
theorem resBlank_step (tm : TM) (op : RegOp) (id : String)
    (hop : isCompleteFor id op = false)
    (hblank : resBlankAt id tm = true) :
    resBlankAt id (applyOp tm op) = true := by
  cases op with
  | create id2 taskType params now =>
    by_cases hid : id2 = id
    · subst hid
      simp [applyOp, createTask, resBlankAt, mapLookup_set_self]
    · have hne : id ≠ id2 := fun h => hid h.symm
      simpa [applyOp, createTask, resBlankAt, mapLookup_set_ne id2 id _ tm hne]
        using hblank
  | start id2 now =>
    rcases hlook : mapLookup id2 tm with _ | t
    · simpa [applyOp, startTask, hlook] using hblank
    · by_cases hid : id2 = id
      · subst hid
        simp only [resBlankAt, hlook] at hblank
        simpa [applyOp, startTask, hlook, resBlankAt, mapLookup_set_self] using hblank
      · have hne : id ≠ id2 := fun h => hid h.symm
        simpa [applyOp, startTask, hlook, resBlankAt,
          mapLookup_set_ne id2 id _ tm hne] using hblank
  | updateProgress id2 progress percent =>
    rcases hlook : mapLookup id2 tm with _ | t
    · simpa [applyOp, updateProgress, hlook] using hblank
    · by_cases hid : id2 = id
      · subst hid
        simp only [resBlankAt, hlook] at hblank
        simpa [applyOp, updateProgress, hlook, resBlankAt, mapLookup_set_self]
          using hblank
      · have hne : id ≠ id2 := fun h => hid h.symm
        simpa [applyOp, updateProgress, hlook, resBlankAt,
          mapLookup_set_ne id2 id _ tm hne] using hblank
  | complete id2 result now =>
    have hne : id ≠ id2 := fun h => by simp [isCompleteFor, h] at hop
    rcases hlook : mapLookup id2 tm with _ | t
    · simpa [applyOp, completeTask, hlook] using hblank
    · simpa [applyOp, completeTask, hlook, resBlankAt,
        mapLookup_set_ne id2 id _ tm hne] using hblank
  | fail id2 errMsg now =>
    rcases hlook : mapLookup id2 tm with _ | t
    · simpa [applyOp, failTask, hlook] using hblank
    · by_cases hid : id2 = id
      · subst hid
        simp only [resBlankAt, hlook] at hblank
        simpa [applyOp, failTask, hlook, resBlankAt, mapLookup_set_self] using hblank
      · have hne : id ≠ id2 := fun h => hid h.symm
        simpa [applyOp, failTask, hlook, resBlankAt,
          mapLookup_set_ne id2 id _ tm hne] using hblank

/-- C2 counterexample: FailTask followed by CompleteTask on the same task
leaves both result and error populated on a completed task, violating
terminal exclusivity as stated. -/
theorem C2_counterexample :
    statusAt "a"
        (run []
          [RegOp.create "a" "backtest" [] 0, RegOp.fail "a" "boom" 1,
            RegOp.complete "a" "r" 2]) =
      some TaskStatus.completed ∧
    errorAt "a"
        (run []
          [RegOp.create "a" "backtest" [] 0, RegOp.fail "a" "boom" 1,
            RegOp.complete "a" "r" 2]) =
      some "boom" ∧
    resultAt "a"
        (run []
          [RegOp.create "a" "backtest" [] 0, RegOp.fail "a" "boom" 1,
            RegOp.complete "a" "r" 2]) =
      some "r" := by
  refine ⟨by decide, by decide, by decide⟩

/-- C2 amended: error is populated only by a FailTask and result only by a
CompleteTask, so over any operation sequence that never fails the task its
error stays blank, and over any sequence that never completes it its
result stays blank; terminal exclusivity therefore holds exactly when the
task receives at most one kind of terminal operation, and before any
terminal operation neither field is populated. -/
theorem C2_terminal_exclusivity (tm : TM) (ops : List RegOp) (id : String) :
    (noFailFor id ops = true → errBlankAt id tm = true →
      errBlankAt id (run tm ops) = true) ∧
    (noCompleteFor id ops = true → resBlankAt id tm = true →
      resBlankAt id (run tm ops) = true) := by
  induction ops generalizing tm with
  | nil => exact ⟨fun _ h => h, fun _ h => h⟩
  | cons op ops ih =>
    constructor
    · intro hops hblank
      simp only [noFailFor, Bool.and_eq_true, Bool.not_eq_true'] at hops
      exact (ih (applyOp tm op)).1 hops.2 (errBlank_step tm op id hops.1 hblank)
    · intro hops hblank
      simp only [noCompleteFor, Bool.and_eq_true, Bool.not_eq_true'] at hops
      exact (ih (applyOp tm op)).2 hops.2 (resBlank_step tm op id hops.1 hblank)

/-- Witness for C2: a task that is created, started and completed, never
failed, ends with a blank error; a task created and failed, never
completed, ends with a blank result. -/
theorem C2_terminal_exclusivity_witness :
    errBlankAt "a"
        (run []
          [RegOp.create "a" "backtest" [] 0, RegOp.start "a" 1,
            RegOp.complete "a" "r" 2]) =
      true ∧
    resBlankAt "b" (run [] [RegOp.create "b" "download" [] 0, RegOp.fail "b" "e" 1]) =
      true :=
  ⟨(C2_terminal_exclusivity []
      [RegOp.create "a" "backtest" [] 0, RegOp.start "a" 1, RegOp.complete "a" "r" 2]
      "a").1 (by decide) (by decide),
    (C2_terminal_exclusivity [] [RegOp.create "b" "download" [] 0, RegOp.fail "b" "e" 1]
      "b").2 (by decide) (by decide)⟩

/-- C7 counterexample: StartTask carries no guard, so a second StartTask
overwrites startedAt with the new clock reading; startedAt is therefore not
set exactly once and is mutated by a later operation. -/
theorem C7_counterexample :
    startedAtOf "a" (run [] [RegOp.create "a" "backtest" [] 0, RegOp.start "a" 1]) =
      some (some 1) ∧
    startedAtOf "a"
        (run []
          [RegOp.create "a" "backtest" [] 0, RegOp.start "a" 1, RegOp.start "a" 2]) =
      some (some 2) := by
  refine ⟨by decide, by decide⟩

/-- C7 amended: CompleteTask and FailTask on a still-pending task are
accepted without a guard and produce the terminal record with result or
error, the fixed placeholder, endedAt set and startedAt still unset;
startedAt is written by StartTask alone, never by UpdateProgress,
CompleteTask or FailTask, but a repeated StartTask overwrites it, so it is
set exactly once only when StartTask is invoked at most once for the id. -/
theorem C7_started_at_discipline (tm : TM) (id : String) (t : Task)
    (result errMsg progress : String) (percent now : Int)
    (hlook : mapLookup id tm = some t) :
    (t.startedAt = none →
      mapLookup id (completeTask tm id result now) =
          some
            { t with status := .completed, result := result,
                     progress := "completed", percent := 100, endedAt := some now } ∧
        mapLookup id (failTask tm id errMsg now) =
          some
            { t with status := .failed, error := errMsg, progress := "failed",
                     endedAt := some now }) ∧
    startedAtOf id (updateProgress tm id progress percent) = startedAtOf id tm ∧
    startedAtOf id (completeTask tm id result now) = startedAtOf id tm ∧
    startedAtOf id (failTask tm id errMsg now) = startedAtOf id tm ∧
    startedAtOf id (startTask tm id now) = some (some now) := by
  refine ⟨fun _ => ⟨?_, ?_⟩, ?_, ?_, ?_, ?_⟩ <;>
    simp [completeTask, failTask, updateProgress, startTask, hlook,
      mapLookup_set_self, startedAtOf]

/-- Witness for C7: completing a freshly created, never started task yields
the completed record with startedAt still unset, and a StartTask on it
writes startedAt. -/
theorem C7_started_at_discipline_witness :
    mapLookup "a" (completeTask (run [] [RegOp.create "a" "backtest" [] 0]) "a" "res" 7) =
      some
        { id := "a", type := "backtest", status := .completed, progress := "completed",
          percent := 100, result := "res", error := "", params := [], createdAt := 0,
          startedAt := none, endedAt := some 7 } ∧
    startedAtOf "a" (startTask (run [] [RegOp.create "a" "backtest" [] 0]) "a" 7) =
      some (some 7) :=
  ⟨((C7_started_at_discipline (run [] [RegOp.create "a" "backtest" [] 0]) "a"
      { id := "a", type := "backtest", status := .pending,
        progress := "waiting to start", percent := 0, result := "", error := "",
        params := [], createdAt := 0, startedAt := none, endedAt := none }
      "res" "err" "p" 50 7 (by decide)).1 rfl).1,
    (C7_started_at_discipline (run [] [RegOp.create "a" "backtest" [] 0]) "a"
      { id := "a", type := "backtest", status := .pending,
        progress := "waiting to start", percent := 0, result := "", error := "",
        params := [], createdAt := 0, startedAt := none, endedAt := none }
      "res" "err" "p" 50 7 (by decide)).2.2.2.2⟩

/-- C5 counterexample: GetTask hands back the stored pointer, so a caller
write through the returned value changes the record the registry stores
for that id; the returned value is not an isolating copy. -/
theorem C5_counterexample :
    ptrGetTask (ptrCreateTask emptyPtrState "a" "backtest" [] 0) "a" = Except.ok 0 ∧
    ptrStoredTask
        (ptrWriteTask (ptrCreateTask emptyPtrState "a" "backtest" [] 0) 0
          { id := "a", type := "backtest", status := .pending,
            progress := "waiting to start", percent := 0, result := "corrupted",
            error := "", params := [], createdAt := 0, startedAt := none,
            endedAt := none })
        "a" ≠
      ptrStoredTask (ptrCreateTask emptyPtrState "a" "backtest" [] 0) "a" := by
  refine ⟨by decide, by decide⟩

/-- C5 amended: GetTask returns the pointer the registry stores, and
ListTasks the stored pointers, not value copies; a caller write through a
pointer obtained from GetTask becomes the registry stored record for that
id, and a write through a pointer obtained from ListTasks overwrites the
heap record it addresses. -/
theorem C5_get_returns_alias (s : PtrState) (id : String) (addr : Nat) (t : Task)
    (taskType status : String) (hget : ptrGetTask s id = .ok addr) :
    ptrStoredTask (ptrWriteTask s addr t) id = some t ∧
    (addr ∈ ptrListTasks s taskType status →
      mapLookup addr (ptrWriteTask s addr t).heap = some t) := by
  have hmap : mapLookup id s.tasks = some addr := by
    rcases hl : mapLookup id s.tasks with _ | a
    · simp [ptrGetTask, hl] at hget
    · simp [ptrGetTask, hl] at hget
      simp [hget]
  constructor
  · simp [ptrStoredTask, ptrWriteTask, hmap, mapLookup_set_self]
  · intro _
    simp [ptrWriteTask, mapLookup_set_self]

/-- Witness for C5: the concrete one-task registry, written through the
pointer GetTask returned. -/
theorem C5_get_returns_alias_witness :
    ptrStoredTask
        (ptrWriteTask (ptrCreateTask emptyPtrState "b" "download" [] 0) 0
          { id := "b", type := "download", status := .pending,
            progress := "waiting to start", percent := 0, result := "x",
            error := "", params := [], createdAt := 0, startedAt := none,
            endedAt := none })
        "b" =
      some
        { id := "b", type := "download", status := .pending,
          progress := "waiting to start", percent := 0, result := "x",
          error := "", params := [], createdAt := 0, startedAt := none,
          endedAt := none } :=
  (C5_get_returns_alias (ptrCreateTask emptyPtrState "b" "download" [] 0) "b" 0
    { id := "b", type := "download", status := .pending,
      progress := "waiting to start", percent := 0, result := "x", error := "",
      params := [], createdAt := 0, startedAt := none, endedAt := none }
    "" "" (by decide)).1

/-- C9: the get_task_status handler does not terminate normally on every
stored task: on a task with endedAt set but startedAt unset, reachable by
CompleteTask without a prior StartTask, the duration computation
dereferences the nil StartedAt pointer, modelled as the none outcome; on a
task that was started the handler returns the expected status response
with duration endedAt minus startedAt. -/
theorem C9_status_handler_nil_deref :
    getTaskStatusHandler
        (run [] [RegOp.create "a" "backtest" [] 0, RegOp.complete "a" "r" 5]) "a" =
      none ∧
    getTaskStatusHandler
        (run []
          [RegOp.create "a" "backtest" [] 0, RegOp.start "a" 1,
            RegOp.complete "a" "r" 5]) "a" =
      some
        (.textResult
          { taskId := "a", taskType := "backtest", status := .completed,
            progress := "completed", percent := 100, params := [],
            startedAt := some 1, endedAt := some 5, duration := some 4,
            error := none }) := by
  refine ⟨by decide, by decide⟩

/-- Every percent the estimator curve produces lies between 5 and 95. -/
theorem estimatorPercent_bounds (ratio : ℝ) :
    5 ≤ estimatorPercent ratio ∧ estimatorPercent ratio ≤ 95 := by
  have hcl : (5 : ℝ) ≤ estimatorClampedPct ratio ∧ estimatorClampedPct ratio ≤ 95 := by
    unfold estimatorClampedPct
    dsimp only
    split_ifs with h1 h2 h3 <;> constructor <;> linarith
  have hnn : ¬ estimatorClampedPct ratio < 0 := by linarith [hcl.1]
  unfold estimatorPercent goTruncR
  rw [if_neg hnn]
  constructor
  · exact Int.le_floor.mpr (by exact_mod_cast hcl.1)
  · have hle : (⌊estimatorClampedPct ratio⌋ : ℝ) ≤ 95 :=
      le_trans (Int.floor_le _) hcl.2
    exact_mod_cast hle

/-- C4: every percent an estimator tick passes to UpdateProgress is the
exponential curve value clamped into 5 to 95 inclusive, and under
estimator-driven operations a stored percent can newly become 100 only
through a CompleteTask. -/
theorem C4_progress_bounds :
    (∀ ratio : ℝ, 5 ≤ estimatorPercent ratio ∧ estimatorPercent ratio ≤ 95) ∧
    ∀ (tm : TM) (op : RegOp) (id : String), estimatorDriven op →
      percentAt id (applyOp tm op) = some 100 →
      percentAt id tm = some 100 ∨ ∃ result now, op = RegOp.complete id result now := by
  constructor
  · exact estimatorPercent_bounds
  · intro tm op id hdrive h100
    cases op with
    | create id2 taskType params now =>
      by_cases hid : id2 = id
      · subst hid
        simp [applyOp, createTask, percentAt, mapLookup_set_self] at h100
      · left
        have hne : id ≠ id2 := fun h => hid h.symm
        simpa [applyOp, createTask, percentAt, mapLookup_set_ne id2 id _ tm hne]
          using h100
    | start id2 now =>
      left
      rcases hlook : mapLookup id2 tm with _ | t
      · simpa [applyOp, startTask, hlook] using h100
      · by_cases hid : id2 = id
        · subst hid
          simp [applyOp, startTask, hlook, percentAt, mapLookup_set_self] at h100
          simp [percentAt, hlook, h100]
        · have hne : id ≠ id2 := fun h => hid h.symm
          simpa [applyOp, startTask, hlook, percentAt,
            mapLookup_set_ne id2 id _ tm hne] using h100
    | updateProgress id2 progress percent =>
      obtain ⟨ratio, hratio⟩ := hdrive
      rcases hlook : mapLookup id2 tm with _ | t
      · left
        simpa [applyOp, updateProgress, hlook] using h100
      · by_cases hid : id2 = id
        · subst hid
          simp [applyOp, updateProgress, hlook, percentAt, mapLookup_set_self] at h100
          have hb := estimatorPercent_bounds ratio
          omega
        · left
          have hne : id ≠ id2 := fun h => hid h.symm
          simpa [applyOp, updateProgress, hlook, percentAt,
            mapLookup_set_ne id2 id _ tm hne] using h100
    | complete id2 result now =>
      by_cases hid : id2 = id
      · subst hid
        exact Or.inr ⟨result, now, rfl⟩
      · left
        rcases hlook : mapLookup id2 tm with _ | t
        · simpa [applyOp, completeTask, hlook] using h100
        · have hne : id ≠ id2 := fun h => hid h.symm
          simpa [applyOp, completeTask, hlook, percentAt,
            mapLookup_set_ne id2 id _ tm hne] using h100
    | fail id2 errMsg now =>
      left
      rcases hlook : mapLookup id2 tm with _ | t
      · simpa [applyOp, failTask, hlook] using h100
      · by_cases hid : id2 = id
        · subst hid
          simp [applyOp, failTask, hlook, percentAt, mapLookup_set_self] at h100
          simp [percentAt, hlook, h100]
        · have hne : id ≠ id2 := fun h => hid h.symm
          simpa [applyOp, failTask, hlook, percentAt,
            mapLookup_set_ne id2 id _ tm hne] using h100

/-- Witness for C4: the estimator bound at ratio zero, and a concrete
CompleteTask raising a percent to 100. -/
theorem C4_progress_bounds_witness :
    (5 ≤ estimatorPercent 0 ∧ estimatorPercent 0 ≤ 95) ∧
    (percentAt "a" (run [] [RegOp.create "a" "backtest" [] 0]) = some 100 ∨
      ∃ result now,
        RegOp.complete "a" "r" (3 : Int) = RegOp.complete "a" result now) :=
  ⟨C4_progress_bounds.1 0,
    C4_progress_bounds.2 (run [] [RegOp.create "a" "backtest" [] 0])
      (RegOp.complete "a" "r" 3) "a" trivial (by decide)⟩

/-- C8 counterexample: at a span of 5.0005 days with the default one
second per day rate, the code first truncates days times rate to whole
milliseconds, yielding exactly 5 seconds, while the claimed formula
max of the exact product and 5 seconds yields 5.0005 seconds. -/
theorem C8_counterexample :
    estimatedTotalNs "other" 0 432043200000000 = 5000000000 ∧
    specEstimatedTotalNs "other" 0 432043200000000 = 5000500000 ∧
    ((5000000000 : ℚ) ≠ 5000500000) := by
  have hs : secsPerDayFor "other" = 1 := rfl
  have hq : spanDays 0 432043200000000 * secsPerDayFor "other" * 1000 = 10001 / 2 := by
    rw [hs]
    norm_num [spanDays, nsPerDay]
  have hg : goTrunc ((10001 : ℚ) / 2) = 5000 := by
    unfold goTrunc
    rw [if_neg (by norm_num), Int.floor_eq_iff]
    constructor <;> norm_num
  refine ⟨?_, ?_, by norm_num⟩
  · unfold estimatedTotalNs
    dsimp only
    rw [hq, hg]
    norm_num
  · unfold specEstimatedTotalNs
    rw [hs]
    rw [show spanDays 0 432043200000000 * 1 * 1000000000 = (5000500000 : ℚ) from by
      norm_num [spanDays, nsPerDay]]
    exact max_eq_left (by norm_num)

/-- C8 amended: the per-kind rates are 0.5 for backtest and
backtest_managed, 2.0 for download and 1.0 for any other kind; the
estimated total duration is the maximum of the days-times-rate product
truncated to whole milliseconds and the 5 second floor; the tick interval
is 2 percent of that estimate truncated to whole nanoseconds and clamped
to between 1 and 10 seconds. -/
theorem C8_estimator_parameters :
    secsPerDayFor "backtest" = 1 / 2 ∧
    secsPerDayFor "backtest_managed" = 1 / 2 ∧
    secsPerDayFor "download" = 2 ∧
    (∀ taskType, taskType ≠ "backtest" → taskType ≠ "backtest_managed" →
      taskType ≠ "download" → secsPerDayFor taskType = 1) ∧
    (∀ (taskType : String) (startNs endNs : Int),
      estimatedTotalNs taskType startNs endNs =
        max
          (goTrunc (spanDays startNs endNs * secsPerDayFor taskType * 1000) * 1000000)
          5000000000) ∧
    (∀ (taskType : String) (startNs endNs : Int),
      tickIntervalNs taskType startNs endNs =
        min
          (max (goTrunc ((estimatedTotalNs taskType startNs endNs : ℚ) * (2 / 100)))
            1000000000)
          10000000000) := by
  refine ⟨rfl, rfl, rfl, ?_, ?_, ?_⟩
  · intro taskType h1 h2 h3
    simp [secsPerDayFor, estimatedSecondsPerDay, mapLookup, Ne.symm h1, Ne.symm h2,
      Ne.symm h3]
  · intro taskType startNs endNs
    unfold estimatedTotalNs
    dsimp only
    rcases lt_or_le
        (goTrunc (spanDays startNs endNs * secsPerDayFor taskType * 1000) * 1000000)
        5000000000 with h | h
    · rw [if_pos h]
      exact (max_eq_right (le_of_lt h)).symm
    · rw [if_neg (not_lt.mpr h)]
      exact (max_eq_left h).symm
  · intro taskType startNs endNs
    unfold tickIntervalNs
    dsimp only
    split_ifs with h1 h2 h3 <;> omega

/-- Witness for C8 at the unknown kind named other and a concrete ninety
day download range. -/
theorem C8_estimator_parameters_witness :
    secsPerDayFor "other" = 1 ∧
    estimatedTotalNs "download" 0 7776000000000000 =
      max
        (goTrunc (spanDays 0 7776000000000000 * secsPerDayFor "download" * 1000) *
          1000000)
        5000000000 :=
  ⟨C8_estimator_parameters.2.2.2.1 "other" (by decide) (by decide) (by decide),
    C8_estimator_parameters.2.2.2.2.1 "download" 0 7776000000000000⟩

end ZtradeMcp
